import Mathlib

/-!
Verification of the cross-match pattern-mining core (`pattern_analyzer.py`)
of the FCB-Pressure-Cooker repository.

The Python source is shallowly embedded below:
* pure helpers (`_is_subsequence`, `subseq_similarity`, `_dedupe_preserve_order`,
  `_compress_sequence_keep_order`, `build_fingerprint_sequence`,
  `_next_goal_delta_sec`) become Lean functions over `List String` / `ℚ` / `Int`;
* pandas data frames are modelled as explicit row lists with flags recording
  whether a required column is present;
* collaborator modules that are not part of this core (`data_loader`,
  `risk_engine`, `danger_detector`) and external numeric libraries
  (`scipy.stats.beta.ppf` / `.cdf`, `math.log1p`) are modelled as explicit
  function parameters ("oracles");
* Python floats are idealised as exact rationals, and `round(x, n)`
  (banker's rounding) is modelled exactly on `ℚ`.
-/

set_option allowUnsafeReducibility true in
attribute [semireducible] Rat.add Rat.mul Rat.inv Rat.sub Rat.neg Rat.div

namespace PatternAnalyzer

/-! ## Module constants (`pattern_analyzer.py`, Config section) -/

/-- `DEFAULT_FINGERPRINT_WINDOW_SEC = 60`. -/
def DEFAULT_FINGERPRINT_WINDOW_SEC : Int := 60

/-- `DEFAULT_STOPWORDS` (a Python `set`, modelled as a list; only membership is used). -/
def DEFAULT_STOPWORDS : List String :=
  ["BUILD UP", "GOALS", "SET PIECES", "PLAYERS IN THE BOX",
   "BALL IN FINAL THIRD", "BALL IN THE BOX"]

/-- `DEFAULT_TOP_K_CODES = 4`. -/
def DEFAULT_TOP_K_CODES : ℕ := 4

/-- `DEFAULT_MIN_SUBSEQ_SIMILARITY = 0.85`. -/
def DEFAULT_MIN_SUBSEQ_SIMILARITY : ℚ := mkRat 85 100

/-- `DEFAULT_MIN_MATCH_FREQUENCY = 2`. -/
def DEFAULT_MIN_MATCH_FREQUENCY : ℕ := 2

/-- `MIN_PATTERN_LEN = 2`. -/
def MIN_PATTERN_LEN : ℕ := 2

/-- `CONF_TIER_HIGH = 0.70`. -/
def CONF_TIER_HIGH : ℚ := mkRat 70 100

/-- `CONF_TIER_MED = 0.45`. -/
def CONF_TIER_MED : ℚ := mkRat 45 100

/-- `CAUSE_CODES` (a Python `set`; only membership is used). -/
def CAUSE_CODES : List String :=
  ["ATTACKING TRANSITION", "DEFENSIVE TRANSITION", "PROGRESSION", "CREATING CHANCES"]

/-- `REQUIRE_CAUSE_CODE = True`. -/
def REQUIRE_CAUSE_CODE : Bool := true

/-! ## Similarity engine -/

/-- `_is_subsequence(shorter, longer)`: the Python implementation walks one shared
iterator over `longer` (`it = iter(longer)`) and, for each element of `shorter`,
consumes `it` up to and including the first matching element
(`all(any(x == y for y in it) for x in shorter)`).  That greedy consumption is
exactly the following recursion. -/
def is_subsequence : List String → List String → Bool
  | [], _ => true
  | _ :: _, [] => false
  | x :: xs, y :: ys => if x = y then is_subsequence xs ys else is_subsequence (x :: xs) ys

/-- `subseq_similarity(a, b)` from `pattern_analyzer.py` (floats idealised as `ℚ`). -/
def subseq_similarity (a b : List String) : ℚ :=
  if a = [] ∧ b = [] then 1
  else if a = [] ∨ b = [] then 0
  else if a.length ≤ b.length then
    (if is_subsequence a b then (a.length : ℚ) else 0) / (max a.length b.length : ℕ)
  else
    (if is_subsequence b a then (b.length : ℚ) else 0) / (max a.length b.length : ℕ)

/-! ## Python `round` on exact rationals

`find_patterns` stores `round(x, n)` of its statistics.  Python 3 `round` uses
banker's rounding (ties to even); on the idealised rational values this is the
function below. -/

/-- Python `round(q)` to an integer: nearest integer, ties to even. -/
def pyRoundInt (q : ℚ) : ℤ :=
  let fl := ⌊q⌋
  let fr := q - fl
  if fr < 1/2 then fl
  else if 1/2 < fr then fl + 1
  else if Even fl then fl else fl + 1

/-- Python `round(q, n)` for `n ≥ 0` decimal digits (the power of ten is taken
in `ℕ` and cast, which evaluates cheaply). -/
def pyRound (n : ℕ) (q : ℚ) : ℚ :=
  (pyRoundInt (q * ((10 ^ n : ℕ) : ℚ)) : ℚ) / ((10 ^ n : ℕ) : ℚ)

/-! ## Fingerprint builder -/

/-- One `active_events` cell of the risk timeline, as accepted by
`_normalize_active_events_to_codes`: `None`, a float `NaN`, a plain string, a
list whose first element is a string (all elements are then stringified), a
list whose first element is a dict (each element contributes its `code` field
when that field is present and truthy, i.e. a non-empty string), or any other
value. -/
inductive Cell where
  | null
  | nan
  | str (s : String)
  | strs (l : List String)
  | dicts (l : List (Option String))
  | other
deriving DecidableEq

/-- `_normalize_active_events_to_codes`. -/
def normalize_active_events_to_codes : Cell → List String
  | .null => []
  | .nan => []
  | .strs l => l
  | .dicts l => l.filterMap (fun o => o.bind (fun c => if c = "" then none else some c))
  | .str s => [s]
  | .other => []

/-- `_dedupe_preserve_order`, with the Python `seen` set carried as an explicit
accumulator. -/
def dedupeGo (seen : List String) : List String → List String
  | [] => []
  | x :: xs => if x ∈ seen then dedupeGo seen xs else x :: dedupeGo (x :: seen) xs

/-- `_dedupe_preserve_order(seq)`: keep the first occurrence of each code. -/
def dedupe_preserve_order (seq : List String) : List String := dedupeGo [] seq

/-- The `keep` set of `_compress_sequence_keep_order`: the codes of the deduped
sequence are scored with the weight lookup `w` (modelling `_code_weight`, the
max of the two external `risk_engine` weight tables), stably sorted by
descending weight (Python `list.sort(key=..., reverse=True)`), and the first
`top_k` survive (`scored[:top_k]`). -/
def keepSet (w : String → ℚ) (seq : List String) (top_k : ℕ) : List String :=
  ((((dedupe_preserve_order seq).map (fun c => (c, w c))).mergeSort
      (fun x y => decide (y.2 ≤ x.2))).take top_k).map Prod.fst

/-- `_compress_sequence_keep_order(seq, top_k)`: keep only the `keepSet` codes,
preserving the original (first-occurrence) order. -/
def compress_sequence_keep_order (w : String → ℚ) (seq : List String) (top_k : ℕ) :
    List String :=
  if seq = [] then []
  else (dedupe_preserve_order seq).filter (fun c => decide (c ∈ keepSet w seq top_k))

/-- A row of the risk timeline (`risk_df`). -/
structure RiskRow where
  timestamp_sec : Int
  active_events : Cell
deriving DecidableEq

/-- The risk-timeline data frame, with flags recording whether the two columns
`build_fingerprint_sequence` requires are present. -/
structure RiskFrame where
  has_timestamp_col : Bool
  has_active_col : Bool
  rows : List RiskRow
deriving DecidableEq

/-- `risk_df["timestamp_sec"].min()` on a non-empty timeline (the empty case is
guarded before this is evaluated and is given a dummy value). -/
def timelineMin : List RiskRow → Int
  | [] => 0
  | r :: rs => (rs.map (fun row => row.timestamp_sec)).foldl min r.timestamp_sec

/-- The window-restriction prelude of `build_fingerprint_sequence`: `None` or
empty timeline, or a missing required column, select no rows; otherwise keep the
rows with `timestamp_sec` in `[max(peak - window, min timestamp), peak]`. -/
def fingerprint_window (risk_df : Option RiskFrame) (peak_time_sec window_sec : Int) :
    List RiskRow :=
  match risk_df with
  | none => []
  | some df =>
    if df.rows = [] then []
    else if ¬ (df.has_timestamp_col ∧ df.has_active_col) then []
    else
      let t0 : Int := max (peak_time_sec - window_sec) (timelineMin df.rows)
      let t1 : Int := peak_time_sec
      df.rows.filter (fun row => decide (t0 ≤ row.timestamp_sec ∧ row.timestamp_sec ≤ t1))

/-- The row walk of `build_fingerprint_sequence`: maintain the previous active,
non-stopword set (`prev_set`), and at each row append the codes that newly
appear (`entered`). -/
def enter_walk (stopwords : List String) (prev : List String) : List RiskRow → List String
  | [] => []
  | r :: rs =>
    let codes : List String := normalize_active_events_to_codes r.active_events
    let cur : List String := codes.filter (fun c => decide (c ≠ "" ∧ c ∉ stopwords))
    let entered : List String := codes.filter (fun c => decide (c ∈ cur ∧ c ∉ prev))
    entered ++ enter_walk stopwords cur rs

/-- `build_fingerprint_sequence(risk_df, peak_time_sec, window_sec, stopwords, top_k)`.
The Python function's early `return []` branches coincide with running the walk
on the empty selected-row list, so the function is the composition below; the
degenerate cases are proved equal to `[]` in `build_fingerprint_degenerate`. -/
def build_fingerprint_sequence (w : String → ℚ) (risk_df : Option RiskFrame)
    (peak_time_sec window_sec : Int) (stopwords : List String) (top_k : ℕ) : List String :=
  compress_sequence_keep_order w
    (dedupe_preserve_order
      (enter_walk stopwords [] (fingerprint_window risk_df peak_time_sec window_sec)))
    top_k

/-! ## Pipeline orchestrator: `build_all_matches_dangers_for_patterns`

The collaborators it calls (`load_events`, `compute_risk_score`,
`detect_danger_moments`, and the events-frame scan `_get_opponent_goal_times`,
which only probes pandas columns) are outside the core and are modelled as
function parameters over an abstract events-frame type `Ev`. -/

/-- A danger moment as produced by the external `detect_danger_moments`. -/
structure DangerIn where
  peak_time : Int
  peak_score : ℚ
  severity : String
  resulted_in_goal : Bool
  nexus_timestamp : String
deriving DecidableEq

/-- A danger moment after enrichment (`dd = dict(d)` plus the three added keys). -/
structure Danger extends DangerIn where
  match_name : String
  fingerprint_seq : List String
  time_to_goal_sec : Option Int
deriving DecidableEq

/-- Python `str.lower()` (the source only lowercases ASCII mode/severity strings). -/
def strLower (s : String) : String := String.mk (s.data.map Char.toLower)

/-- Python `str.strip()`. -/
def strStrip (s : String) : String :=
  String.mk (((s.data.dropWhile Char.isWhitespace).reverse.dropWhile
    Char.isWhitespace).reverse)

/-- `mode = (mode or "all").lower().strip()`: a falsy (empty) mode defaults to
`"all"`, then the string is lowercased and stripped. -/
def normalize_mode (mode : String) : String :=
  strStrip (strLower (if mode = "" then "all" else mode))

/-- `_next_goal_delta_sec(peak_time, opponent_goal_times, max_lookahead)`: the
first listed goal time at or after the peak yields its delta when within the
lookahead, else `None`; the scan stops at that first qualifying time. -/
def next_goal_delta_sec (peak_time : Int) : List Int → Int → Option Int
  | [], _ => none
  | gt :: rest, max_lookahead =>
    if peak_time ≤ gt then
      if gt - peak_time ≤ max_lookahead then some (gt - peak_time) else none
    else next_goal_delta_sec peak_time rest max_lookahead

/-- The per-moment enrichment step of `build_all_matches_dangers_for_patterns`. -/
def enrich_danger (w : String → ℚ) (risk_df : Option RiskFrame)
    (opp_goal_times : List Int) (time_to_goal_lookahead_sec : Int)
    (match_name : String) (d : DangerIn) : Danger :=
  { toDangerIn := d
    match_name := match_name
    fingerprint_seq :=
      build_fingerprint_sequence w risk_df d.peak_time DEFAULT_FINGERPRINT_WINDOW_SEC
        DEFAULT_STOPWORDS DEFAULT_TOP_K_CODES
    time_to_goal_sec :=
      next_goal_delta_sec d.peak_time opp_goal_times time_to_goal_lookahead_sec }

/-- `build_all_matches_dangers_for_patterns(matches, mode=..., ...)`.  The
peak-picking tunables are folded into the `detect_danger_moments` oracle, which
receives exactly the data the source passes it (`risk_df`, `events_df`).  An
invalid mode raises `ValueError` before any per-match work, modelled as
`Except.error`. -/
def build_all_matches_dangers_for_patterns {Ev : Type}
    (w : String → ℚ)
    (load_events : String → Ev)
    (compute_risk_score : Ev → Option RiskFrame)
    (detect_danger_moments : Option RiskFrame → Ev → List DangerIn)
    (get_opponent_goal_times : Ev → List Int)
    (match_names : List String) (mode : String)
    (time_to_goal_lookahead_sec : Int) : Except String (List Danger) :=
  let m := normalize_mode mode
  if m ∉ (["all", "goals", "critical"] : List String) then
    Except.error "mode must be one of: 'all', 'goals', 'critical'"
  else
    Except.ok (match_names.flatMap (fun match_name =>
      let events_df := load_events match_name
      let risk_df := compute_risk_score events_df
      let dangers := detect_danger_moments risk_df events_df
      let filtered :=
        if m = "goals" then dangers.filter (fun d => d.resulted_in_goal)
        else if m = "critical" then
          dangers.filter (fun d => decide (strLower d.severity = "critical"))
        else dangers
      let opp_goal_times := get_opponent_goal_times events_df
      filtered.map
        (enrich_danger w risk_df opp_goal_times time_to_goal_lookahead_sec match_name)))

/-- The mode filter as §4.5 of the spec words it: `goals` keeps only
goal-resulting moments, `critical` keeps only critical-severity moments (the
code compares the lowercased severity), any other (valid) mode keeps everything. -/
def mode_keeps (m : String) (d : DangerIn) : Bool :=
  if m = "goals" then d.resulted_in_goal
  else if m = "critical" then decide (strLower d.severity = "critical")
  else true

deriving instance DecidableEq for Except

/-! ## Pattern grouping (`find_patterns`, clustering pass) -/

/-- `_has_cause_code(seq)`. -/
def has_cause_code (seq : List String) : Bool :=
  seq.any (fun c => decide (c ∈ CAUSE_CODES))

/-- `_valid_seq(d)` (local helper of `find_patterns`): non-empty fingerprint of
length at least `MIN_PATTERN_LEN`. -/
def valid_seq (d : Danger) : Bool :=
  decide (d.fingerprint_seq ≠ [] ∧ MIN_PATTERN_LEN ≤ d.fingerprint_seq.length)

/-- The `Pattern` dataclass: an in-progress cluster.  The Python `set` of match
names is carried as its insertion-ordered list of distinct elements (the code
consumes only its size and its sorted listing). -/
structure Pattern where
  sequence : List String
  match_names : List String
  examples : List Danger
  goals_in_pattern : ℕ
deriving DecidableEq

/-- `c.matches.add(name)` on the list model of the Python set. -/
def setAdd (l : List String) (x : String) : List String :=
  if x ∈ l then l else l ++ [x]

/-- Attaching one retained moment: the inner `for c in clusters` loop of
`find_patterns` with its first-fit `break`, followed by the `if not placed`
fallback that appends a fresh cluster. -/
def place_in_clusters (θ : ℚ) (d : Danger) : List Pattern → List Pattern
  | [] =>
    [{ sequence := d.fingerprint_seq
       match_names := [d.match_name]
       examples := [d]
       goals_in_pattern := if d.resulted_in_goal then 1 else 0 }]
  | c :: rest =>
    if θ ≤ subseq_similarity d.fingerprint_seq c.sequence then
      { sequence :=
          if d.fingerprint_seq.length < c.sequence.length then d.fingerprint_seq
          else c.sequence
        match_names := setAdd c.match_names d.match_name
        examples := if c.examples.length < 5 then c.examples ++ [d] else c.examples
        goals_in_pattern :=
          c.goals_in_pattern + (if d.resulted_in_goal then 1 else 0) } :: rest
    else c :: place_in_clusters θ d rest

/-- The per-moment body of the clustering loop: the three `continue` guards,
then placement. -/
def cluster_step (θ : ℚ) (require_cause : Bool) (cs : List Pattern) (d : Danger) :
    List Pattern :=
  if d.fingerprint_seq = [] then cs
  else if d.fingerprint_seq.length < MIN_PATTERN_LEN then cs
  else if require_cause && !(has_cause_code d.fingerprint_seq) then cs
  else place_in_clusters θ d cs

/-- The cluster-building pass of `find_patterns` over the focus list, strictly
in input order. -/
def build_clusters (θ : ℚ) (require_cause : Bool) (all_dangers : List Danger) :
    List Pattern :=
  all_dangers.foldl (cluster_step θ require_cause) []

/-! Spec-side rendering of §4.3 (used to state C2): attach the moment to the
first existing cluster, in cluster-creation order, whose representative scores
at or above the threshold, applying the four described updates; otherwise start
a new cluster. -/

/-- The §4.3 cluster update: record the contributing match name, append the
moment to the exemplar list if under the cap of 5, increment the goal counter
if the moment resulted in a goal, and replace the representative iff the new
fingerprint is strictly shorter. -/
def spec_update_cluster (d : Danger) (c : Pattern) : Pattern :=
  { sequence :=
      if d.fingerprint_seq.length < c.sequence.length then d.fingerprint_seq
      else c.sequence
    match_names := setAdd c.match_names d.match_name
    examples := if c.examples.length < 5 then c.examples ++ [d] else c.examples
    goals_in_pattern := c.goals_in_pattern + (if d.resulted_in_goal then 1 else 0) }

/-- The §4.3 fresh cluster: the fingerprint as representative and the moment as
sole initial member. -/
def spec_new_cluster (d : Danger) : Pattern :=
  { sequence := d.fingerprint_seq
    match_names := [d.match_name]
    examples := [d]
    goals_in_pattern := if d.resulted_in_goal then 1 else 0 }

/-- First-fit placement as §4.3 words it: split the cluster list at the first
cluster scoring at or above the threshold, update that cluster in place, or
append a fresh cluster when none matches. -/
def spec_place (θ : ℚ) (d : Danger) (cs : List Pattern) : List Pattern :=
  match cs.dropWhile
      (fun c => !(decide (θ ≤ subseq_similarity d.fingerprint_seq c.sequence))) with
  | c :: post =>
    cs.takeWhile (fun c => !(decide (θ ≤ subseq_similarity d.fingerprint_seq c.sequence)))
      ++ spec_update_cluster d c :: post
  | [] => cs ++ [spec_new_cluster d]

/-- One step of §4.3: skip a moment whose fingerprint is empty, shorter than the
minimum, or (if required) contains no cause code; otherwise place it first-fit. -/
def spec_cluster_step (θ : ℚ) (require_cause : Bool) (cs : List Pattern) (d : Danger) :
    List Pattern :=
  if d.fingerprint_seq = [] ∨ d.fingerprint_seq.length < MIN_PATTERN_LEN ∨
      (require_cause = true ∧ ¬ ∃ c ∈ d.fingerprint_seq, c ∈ CAUSE_CODES) then cs
  else spec_place θ d cs

/-! ## Statistical scorer (`find_patterns`, scoring pass) -/

/-- The external numeric functions used by the scorer, exactly as called:
`scipy.stats.beta.ppf(q, a, b)` and `scipy.stats.beta.cdf(x, a, b)` with the
posterior's integer shape parameters, and `math.log1p(x)`. -/
structure StatsOracles where
  ppf : ℚ → ℕ → ℕ → ℚ
  cdf : ℚ → ℕ → ℕ → ℚ
  log1p : ℚ → ℚ

/-- The keyword parameters of `find_patterns`. -/
structure PatternParams where
  min_subseq_similarity : ℚ
  min_match_frequency : ℕ
  min_occurrences : ℕ
  min_lift : ℚ
  ci_level : ℚ
  support_target_occ : ℕ
  support_target_matches : ℕ
deriving DecidableEq

/-- One entry of a result's `examples` list (the projected moment fields). -/
structure ExampleSummary where
  match_name : String
  peak_time : Int
  peak_score : ℚ
  severity : String
  resulted_in_goal : Bool
  nexus_timestamp : String
deriving DecidableEq

/-- The example projection inside the output record built by `find_patterns`. -/
def summarize_example (d : Danger) : ExampleSummary :=
  { match_name := d.match_name
    peak_time := d.peak_time
    peak_score := d.peak_score
    severity := d.severity
    resulted_in_goal := d.resulted_in_goal
    nexus_timestamp := d.nexus_timestamp }

/-- The output record of `find_patterns` (the PatternResult dict). -/
structure PatternResult where
  sequence : List String
  match_count : ℕ
  frequency : String
  occurrences : ℕ
  goals_in_pattern : ℕ
  pattern_goal_rate : ℚ
  baseline_goal_rate : ℚ
  lift : ℚ
  avg_time_to_goal : Option ℚ
  posterior_mean : ℚ
  ci_level : ℚ
  ci_low : ℚ
  ci_high : ℚ
  p_goal_rate_gt_baseline : ℚ
  confidence_score : ℚ
  confidence_tier : String
  example_matches : List String
  examples : List ExampleSummary
deriving DecidableEq

/-- `base_occ`: baseline moments with a valid fingerprint. -/
def baseline_valid_count (base : List Danger) : ℕ := (base.filter valid_seq).length

/-- `base_goals`: baseline moments with a valid fingerprint that resulted in a
goal. -/
def baseline_goal_count (base : List Danger) : ℕ :=
  (base.filter (fun d => valid_seq d && d.resulted_in_goal)).length

/-- `baseline_goal_rate = (base_goals / base_occ) if base_occ else 0.0`,
computed once for the whole baseline set. -/
def baseline_goal_rate_of (base : List Danger) : ℚ :=
  if baseline_valid_count base ≠ 0 then
    (baseline_goal_count base : ℚ) / (baseline_valid_count base : ℚ)
  else 0

/-- The baseline moments counted for a cluster: valid fingerprint and similarity
to the cluster representative at or above the threshold (the single pass
`for d in base` of the scorer, rendered as a filter). -/
def cluster_base_filter (θ : ℚ) (base : List Danger) (c : Pattern) : List Danger :=
  base.filter (fun d =>
    valid_seq d && decide (θ ≤ subseq_similarity d.fingerprint_seq c.sequence))

/-- `occurrences` recomputed against the baseline set. -/
def cluster_occurrences (θ : ℚ) (base : List Danger) (c : Pattern) : ℕ :=
  (cluster_base_filter θ base c).length

/-- `goals_for_pattern` recomputed against the baseline set. -/
def cluster_goals (θ : ℚ) (base : List Danger) (c : Pattern) : ℕ :=
  ((cluster_base_filter θ base c).filter (fun d => d.resulted_in_goal)).length

/-- `deltas`: `time_to_goal_sec` of counted baseline moments that resulted in a
goal and carry a numeric delta. -/
def cluster_deltas (θ : ℚ) (base : List Danger) (c : Pattern) : List Int :=
  (cluster_base_filter θ base c).filterMap
    (fun d => if d.resulted_in_goal then d.time_to_goal_sec else none)

/-- `pattern_goal_rate = goals_for_pattern / occurrences if occurrences else 0.0`. -/
def cluster_pattern_goal_rate (θ : ℚ) (base : List Danger) (c : Pattern) : ℚ :=
  if cluster_occurrences θ base c ≠ 0 then
    (cluster_goals θ base c : ℚ) / (cluster_occurrences θ base c : ℚ)
  else 0

/-- `lift = pattern_goal_rate / baseline_goal_rate if baseline_goal_rate > 0 else 0.0`. -/
def cluster_lift (θ : ℚ) (base : List Danger) (c : Pattern) (baseline_goal_rate : ℚ) : ℚ :=
  if 0 < baseline_goal_rate then
    cluster_pattern_goal_rate θ base c / baseline_goal_rate
  else 0

/-- The record a surviving cluster contributes to `out` (the tail of the
per-cluster scoring body of `find_patterns`, after the three discard guards). -/
def scored_record (os : StatsOracles) (ps : PatternParams) (base : List Danger)
    (baseline_goal_rate : ℚ) (total_matches : ℕ) (c : Pattern) : PatternResult :=
  let match_count := c.match_names.length
  let occurrences := cluster_occurrences ps.min_subseq_similarity base c
  let goals_for_pattern := cluster_goals ps.min_subseq_similarity base c
  let deltas := cluster_deltas ps.min_subseq_similarity base c
  let pattern_goal_rate := cluster_pattern_goal_rate ps.min_subseq_similarity base c
  let lift := cluster_lift ps.min_subseq_similarity base c baseline_goal_rate
  let avg_time_to_goal : Option ℚ :=
    if deltas ≠ [] then some ((deltas.sum : ℚ) / (deltas.length : ℚ)) else none
  let a_post := goals_for_pattern + 1
  let b_post := (occurrences - goals_for_pattern) + 1
  let alpha := (1 - ps.ci_level) / 2
  let ci_low := os.ppf alpha a_post b_post
  let ci_high := os.ppf (1 - alpha) a_post b_post
  let post_mean : ℚ := (a_post : ℚ) / ((a_post : ℚ) + (b_post : ℚ))
  let p_gt_baseline := 1 - os.cdf baseline_goal_rate a_post b_post
  let support_occ :=
    min 1 (os.log1p (occurrences : ℚ) / os.log1p (ps.support_target_occ : ℚ))
  let support_matches := min 1 ((match_count : ℚ) / (ps.support_target_matches : ℚ))
  let support_scaler := (1/2 : ℚ) * support_occ + (1/2 : ℚ) * support_matches
  let confidence_score := p_gt_baseline * support_scaler
  let tier :=
    if CONF_TIER_HIGH ≤ confidence_score then "high"
    else if CONF_TIER_MED ≤ confidence_score then "medium"
    else "low"
  { sequence := c.sequence
    match_count := match_count
    frequency := Nat.repr match_count ++ "/" ++ Nat.repr total_matches ++ " matches"
    occurrences := occurrences
    goals_in_pattern := goals_for_pattern
    pattern_goal_rate := pyRound 4 pattern_goal_rate
    baseline_goal_rate := pyRound 4 baseline_goal_rate
    lift := pyRound 3 lift
    avg_time_to_goal := avg_time_to_goal.map (pyRound 2)
    posterior_mean := pyRound 4 post_mean
    ci_level := ps.ci_level
    ci_low := pyRound 4 ci_low
    ci_high := pyRound 4 ci_high
    p_goal_rate_gt_baseline := pyRound 4 p_gt_baseline
    confidence_score := pyRound 4 confidence_score
    confidence_tier := tier
    example_matches := (c.match_names.mergeSort (fun a b => decide (a ≤ b))).take 5
    examples := c.examples.map summarize_example }

/-- The per-cluster scoring and filtering body of `find_patterns`: `none` models
`continue` (a discarded cluster), `some` the record appended to `out`. -/
def score_cluster (os : StatsOracles) (ps : PatternParams) (base : List Danger)
    (baseline_goal_rate : ℚ) (total_matches : ℕ) (c : Pattern) : Option PatternResult :=
  let match_count := c.match_names.length
  if match_count < ps.min_match_frequency then none
  else
    let occurrences := cluster_occurrences ps.min_subseq_similarity base c
    if occurrences < ps.min_occurrences then none
    else
      let lift := cluster_lift ps.min_subseq_similarity base c baseline_goal_rate
      if lift < ps.min_lift then none
      else some (scored_record os ps base baseline_goal_rate total_matches c)

/-- The lexicographic sort key `(confidence_score, lift, match_count, occurrences)`
of the final `out.sort(..., reverse=True)`. -/
def result_key (r : PatternResult) : ℚ ×ₗ (ℚ ×ₗ (ℕ ×ₗ ℕ)) :=
  toLex (r.confidence_score, toLex (r.lift, toLex (r.match_count, r.occurrences)))

/-- Descending comparator for the final sort (stable, as Python's sort). -/
def result_desc (x y : PatternResult) : Bool := decide (result_key y ≤ result_key x)

/-- `find_patterns(all_dangers, baseline_dangers=..., **params)` with the
external numeric functions passed explicitly. -/
def find_patterns (os : StatsOracles) (all_dangers : List Danger)
    (baseline_dangers : Option (List Danger)) (ps : PatternParams) : List PatternResult :=
  let base := baseline_dangers.getD all_dangers
  let baseline_goal_rate := baseline_goal_rate_of base
  let total_matches :=
    (dedupe_preserve_order (base.map (fun d => d.match_name))).length
  let clusters := build_clusters ps.min_subseq_similarity REQUIRE_CAUSE_CODE all_dangers
  (clusters.filterMap (score_cluster os ps base baseline_goal_rate total_matches)).mergeSort
    result_desc

/-! ## A small concrete run, used by witnesses and counterexamples -/

/-- A sample enriched danger moment. -/
def exDanger (mn : String) (seq : List String) (goal : Bool) (ttg : Option Int) : Danger :=
  { peak_time := 10
    peak_score := 50
    severity := "elevated"
    resulted_in_goal := goal
    nexus_timestamp := "nx"
    match_name := mn
    fingerprint_seq := seq
    time_to_goal_sec := ttg }

/-- A two-moment focus set from two matches with the same cause-coded fingerprint. -/
def exFocus : List Danger :=
  [exDanger "m1" ["PROGRESSION", "X"] true none,
   exDanger "m2" ["PROGRESSION", "X"] false none]

/-- A four-moment baseline set: three moments matching the cluster (two goals),
one non-matching non-goal moment; baseline goal rate 2/4 = 1/2, recomputed
cluster occurrences 3 with 2 goals, so the lift is (2/3)/(1/2) = 4/3. -/
def exBase : List Danger :=
  [exDanger "b1" ["PROGRESSION", "X"] true (some 30),
   exDanger "b2" ["PROGRESSION", "X"] true (some 60),
   exDanger "b3" ["PROGRESSION", "X"] false none,
   exDanger "b4" ["A", "B", "C"] false none]

/-- Concrete stand-ins for the external numeric functions, satisfying the
quantile/CDF/log facts the invariants need: the quantile stub sits exactly at
the posterior mean, the CDF stub returns 1/2, `log1p` is the identity. -/
def exOracles : StatsOracles :=
  { ppf := fun _ a b => (a : ℚ) / ((a : ℚ) + (b : ℚ))
    cdf := fun _ _ _ => mkRat 1 2
    log1p := fun x => x }

/-- Parameters of the sample run (defaults except the given `min_lift`). -/
def exParams (ml : ℚ) : PatternParams :=
  { min_subseq_similarity := mkRat 85 100
    min_match_frequency := 2
    min_occurrences := 3
    min_lift := ml
    ci_level := mkRat 9 10
    support_target_occ := 25
    support_target_matches := 6 }

/-- The single cluster the sample focus set produces. -/
def exCluster : Pattern :=
  { sequence := ["PROGRESSION", "X"]
    match_names := ["m1", "m2"]
    examples := exFocus
    goals_in_pattern := 1 }

/-- The record the sample run emits. -/
def exResult : PatternResult :=
  scored_record exOracles (exParams (mkRat 115 100)) exBase (baseline_goal_rate_of exBase)
    ((dedupe_preserve_order (exBase.map (fun d => d.match_name))).length) exCluster

/-! ## Theorems -/

/-- The greedy test coincides with the library's `List.isSublist`. -/
theorem is_subsequence_eq_isSublist (s l : List String) :
    is_subsequence s l = s.isSublist l := by
  induction l generalizing s with
  | nil => cases s <;> simp [is_subsequence, List.isSublist]
  | cons y ys ih =>
    cases s with
    | nil => simp [is_subsequence, List.isSublist]
    | cons x xs =>
      simp only [is_subsequence, List.isSublist, beq_iff_eq]
      by_cases h : x = y <;> simp [h, ih]

/-- The greedy test decides the mathematical ordered-subsequence relation. -/
theorem is_subsequence_iff (s l : List String) :
    is_subsequence s l = true ↔ s.Sublist l := by
  rw [is_subsequence_eq_isSublist]
  exact List.isSublist_iff_sublist

/-- C1: `subseq_similarity` returns 1 when both sequences are empty, 0 when exactly
one is empty, and otherwise `len(shorter)/len(longer)` when the shorter sequence
(ties: `a` is tested as the shorter against `b`) is an ordered, not-necessarily-
contiguous subsequence of the longer, else 0.  Consequently `sim s s = 1`, the
result lies in `[0, 1]`, and a positive result implies one input is an ordered
subsequence of the other. -/
theorem subseq_similarity_spec (a b : List String) :
    (a = [] → b = [] → subseq_similarity a b = 1) ∧
    (a = [] → b ≠ [] → subseq_similarity a b = 0) ∧
    (a ≠ [] → b = [] → subseq_similarity a b = 0) ∧
    (a ≠ [] → b ≠ [] → a.length ≤ b.length →
      subseq_similarity a b = if a.Sublist b then (a.length : ℚ) / (b.length : ℚ) else 0) ∧
    (a ≠ [] → b ≠ [] → b.length < a.length →
      subseq_similarity a b = if b.Sublist a then (b.length : ℚ) / (a.length : ℚ) else 0) ∧
    subseq_similarity a a = 1 ∧
    (0 ≤ subseq_similarity a b ∧ subseq_similarity a b ≤ 1) ∧
    (0 < subseq_similarity a b → a.Sublist b ∨ b.Sublist a) := by
  refine ⟨?_, ?_, ?_, ?_, ?_, ?_, ?_, ?_⟩
  · intro ha hb; simp [subseq_similarity, ha, hb]
  · intro ha hb; simp [subseq_similarity, ha, hb]
  · intro ha hb; simp [subseq_similarity, ha, hb]
  · intro ha hb hle
    rw [subseq_similarity]
    rw [if_neg (by tauto), if_neg (by tauto), if_pos hle, Nat.max_eq_right hle]
    by_cases hs : a.Sublist b
    · rw [if_pos ((is_subsequence_iff a b).mpr hs), if_pos hs]
    · rw [if_neg (fun h => hs ((is_subsequence_iff a b).mp h)), if_neg hs, zero_div]
  · intro ha hb hlt
    rw [subseq_similarity]
    rw [if_neg (by tauto), if_neg (by tauto), if_neg (by omega),
      Nat.max_eq_left (Nat.le_of_lt hlt)]
    by_cases hs : b.Sublist a
    · rw [if_pos ((is_subsequence_iff b a).mpr hs), if_pos hs]
    · rw [if_neg (fun h => hs ((is_subsequence_iff b a).mp h)), if_neg hs, zero_div]
  · by_cases ha : a = []
    · simp [subseq_similarity, ha]
    · rw [subseq_similarity, if_neg (by tauto), if_neg (by tauto), if_pos le_rfl,
        if_pos ((is_subsequence_iff a a).mpr (List.Sublist.refl a)), Nat.max_self]
      have hlen : (a.length : ℚ) ≠ 0 := by simpa using ha
      field_simp
  · constructor
    · rw [subseq_similarity]
      split
      · norm_num
      split
      · norm_num
      split
      · apply div_nonneg
        · split <;> positivity
        · positivity
      · apply div_nonneg
        · split <;> positivity
        · positivity
    · rw [subseq_similarity]
      split
      · norm_num
      split
      · norm_num
      split
      · apply div_le_one_of_le₀
        · split
          · exact_mod_cast Nat.le_max_left a.length b.length
          · positivity
        · positivity
      · apply div_le_one_of_le₀
        · split
          · exact_mod_cast Nat.le_max_right a.length b.length
          · positivity
        · positivity
  · intro hpos
    rw [subseq_similarity] at hpos
    split at hpos
    · rename_i h
      exact Or.inl (by rw [h.1]; exact List.nil_sublist b)
    split at hpos
    · norm_num at hpos
    split at hpos
    · left
      by_cases hs : is_subsequence a b = true
      · exact (is_subsequence_iff a b).mp hs
      · rw [if_neg hs, zero_div] at hpos
        norm_num at hpos
    · right
      by_cases hs : is_subsequence b a = true
      · exact (is_subsequence_iff b a).mp hs
      · rw [if_neg hs, zero_div] at hpos
        norm_num at hpos

/-- Witness for C1: concrete evaluation through the theorem. -/
theorem subseq_similarity_spec_witness :
    subseq_similarity ["PROGRESSION"] ["PROGRESSION", "GOALS"] = 1 / 2 := by
  have h := (subseq_similarity_spec ["PROGRESSION"] ["PROGRESSION", "GOALS"]).2.2.2.1
    (by decide) (by decide) (by decide)
  rw [h, if_pos (by decide)]
  decide

/-- C10: `subseq_similarity` is symmetric; on equal lengths both argument orders
reduce to sequence equality. -/
theorem subseq_similarity_comm (a b : List String) :
    subseq_similarity a b = subseq_similarity b a := by
  by_cases ha : a = []
  · by_cases hb : b = [] <;> simp [subseq_similarity, ha, hb]
  · by_cases hb : b = []
    · simp [subseq_similarity, ha, hb]
    · have h1 : ¬ (a = [] ∧ b = []) := by tauto
      have h2 : ¬ (a = [] ∨ b = []) := by tauto
      have h1' : ¬ (b = [] ∧ a = []) := by tauto
      have h2' : ¬ (b = [] ∨ a = []) := by tauto
      rcases lt_trichotomy a.length b.length with hlt | heq | hgt
      · rw [subseq_similarity, subseq_similarity, if_neg h1, if_neg h2, if_neg h1',
          if_neg h2', if_pos (Nat.le_of_lt hlt),
          if_neg (by omega : ¬ b.length ≤ a.length), Nat.max_comm]
      · have hiff : is_subsequence a b = is_subsequence b a := by
          by_cases hs : a.Sublist b
          · rw [(is_subsequence_iff a b).mpr hs,
              (is_subsequence_iff b a).mpr (hs.eq_of_length heq ▸ List.Sublist.refl b)]
          · have hs' : ¬ b.Sublist a := fun h =>
              hs ((h.eq_of_length heq.symm) ▸ List.Sublist.refl a)
            rw [Bool.eq_false_iff.mpr (fun h => hs ((is_subsequence_iff a b).mp h)),
              Bool.eq_false_iff.mpr (fun h => hs' ((is_subsequence_iff b a).mp h))]
        rw [subseq_similarity, subseq_similarity, if_neg h1, if_neg h2, if_neg h1',
          if_neg h2', if_pos (le_of_eq heq), if_pos (le_of_eq heq.symm),
          Nat.max_comm, hiff, heq]
      · rw [subseq_similarity, subseq_similarity, if_neg h1, if_neg h2, if_neg h1',
          if_neg h2', if_neg (by omega : ¬ a.length ≤ b.length),
          if_pos (Nat.le_of_lt hgt), Nat.max_comm]

theorem pow_ten_cast (n : ℕ) : ((10 ^ n : ℕ) : ℚ) = (10 : ℚ) ^ n := by push_cast; rfl

theorem pow_ten_pos (n : ℕ) : (0:ℚ) < ((10 ^ n : ℕ) : ℚ) := by
  rw [pow_ten_cast]; positivity

theorem pyRoundInt_le (q : ℚ) : (pyRoundInt q : ℚ) ≤ q + 1/2 := by
  have hfl : (⌊q⌋ : ℚ) ≤ q := Int.floor_le q
  have hfl' : q < ⌊q⌋ + 1 := Int.lt_floor_add_one q
  rw [pyRoundInt]
  split
  · rename_i h; linarith
  split
  · rename_i h h'; push_cast; linarith
  split
  · linarith
  · rename_i h h' _
    push_cast
    linarith

theorem le_pyRoundInt (q : ℚ) : q - 1/2 ≤ (pyRoundInt q : ℚ) := by
  have hfl : (⌊q⌋ : ℚ) ≤ q := Int.floor_le q
  have hfl' : q < ⌊q⌋ + 1 := Int.lt_floor_add_one q
  rw [pyRoundInt]
  split
  · rename_i h; linarith
  split
  · rename_i h h'; push_cast; linarith
  split
  · rename_i h h' _; linarith
  · rename_i h h' _
    push_cast
    linarith

theorem pyRoundInt_mono {a b : ℚ} (hab : a ≤ b) : pyRoundInt a ≤ pyRoundInt b := by
  by_contra hlt
  push_neg at hlt
  have h1 : (pyRoundInt b : ℚ) + 1 ≤ (pyRoundInt a : ℚ) := by exact_mod_cast hlt
  have h2 := pyRoundInt_le a
  have h3 := le_pyRoundInt b
  have hba : b ≤ a := by linarith
  have : a = b := le_antisymm hab hba
  rw [this] at hlt
  exact absurd rfl (Int.ne_of_lt hlt)

theorem pyRoundInt_intCast (z : ℤ) : pyRoundInt (z : ℚ) = z := by
  rw [pyRoundInt]
  have h : ⌊(z : ℚ)⌋ = z := Int.floor_intCast z
  rw [h]
  rw [if_pos (by norm_num)]

theorem pyRound_mono (n : ℕ) {a b : ℚ} (hab : a ≤ b) : pyRound n a ≤ pyRound n b := by
  have hp : (0:ℚ) < ((10 ^ n : ℕ) : ℚ) := pow_ten_pos n
  rw [pyRound, pyRound, div_le_div_iff_of_pos_right hp]
  exact_mod_cast pyRoundInt_mono (mul_le_mul_of_nonneg_right hab (le_of_lt hp))

theorem pyRound_intCast (n : ℕ) (z : ℤ) : pyRound n (z : ℚ) = (z : ℚ) := by
  rw [pyRound]
  have h1 : ((z : ℚ) * ((10 ^ n : ℕ) : ℚ)) = ((z * (10 ^ n : ℕ) : ℤ) : ℚ) := by
    push_cast
    ring
  rw [h1, pyRoundInt_intCast]
  have hp : ((10:ℚ) ^ n) ≠ 0 := by positivity
  push_cast
  field_simp

theorem pyRound_zero (n : ℕ) : pyRound n 0 = 0 := by
  simpa using pyRound_intCast n 0

theorem pyRound_one (n : ℕ) : pyRound n 1 = 1 := by
  simpa using pyRound_intCast n 1

/-- `pyRound` keeps values inside `[0, 1]`. -/
theorem pyRound_mem_unit (n : ℕ) {q : ℚ} (h0 : 0 ≤ q) (h1 : q ≤ 1) :
    0 ≤ pyRound n q ∧ pyRound n q ≤ 1 := by
  constructor
  · have := pyRound_mono n h0
    rwa [pyRound_zero] at this
  · have := pyRound_mono n h1
    rwa [pyRound_one] at this

/-- `pyRound n` moves a value by at most half an ulp, `1/(2 * 10 ^ n)`. -/
theorem sub_le_pyRound (n : ℕ) (q : ℚ) : q - 1 / (2 * 10 ^ n) ≤ pyRound n q := by
  have hp : (0:ℚ) < ((10 ^ n : ℕ) : ℚ) := pow_ten_pos n
  have h := le_pyRoundInt (q * ((10 ^ n : ℕ) : ℚ))
  rw [pyRound, le_div_iff₀ hp]
  have heq : (q - 1 / (2 * 10 ^ n)) * ((10 ^ n : ℕ) : ℚ)
      = q * ((10 ^ n : ℕ) : ℚ) - 1/2 := by
    rw [pow_ten_cast]
    have hp2 : ((10:ℚ) ^ n) ≠ 0 := by positivity
    field_simp
    ring
  rw [heq]
  exact h

theorem mem_dedupeGo (a : String) (l : List String) :
    ∀ seen, a ∈ dedupeGo seen l ↔ a ∈ l ∧ a ∉ seen := by
  induction l with
  | nil => intro seen; simp [dedupeGo]
  | cons x xs ih =>
    intro seen
    rw [dedupeGo]
    by_cases hx : x ∈ seen
    · rw [if_pos hx]
      simp only [ih seen, List.mem_cons]
      constructor
      · rintro ⟨h1, h2⟩
        exact ⟨Or.inr h1, h2⟩
      · rintro ⟨h1 | h1, h2⟩
        · subst h1; exact absurd hx h2
        · exact ⟨h1, h2⟩
    · rw [if_neg hx]
      simp only [ih (x :: seen), List.mem_cons]
      constructor
      · rintro (h | ⟨h1, h2⟩)
        · exact ⟨Or.inl h, by rw [h]; exact hx⟩
        · exact ⟨Or.inr h1, fun hs => h2 (Or.inr hs)⟩
      · rintro ⟨h | h, h2⟩
        · exact Or.inl h
        · by_cases hax : a = x
          · exact Or.inl hax
          · exact Or.inr ⟨h, fun hs => hs.elim hax h2⟩

theorem dedupeGo_sublist (l : List String) : ∀ seen, (dedupeGo seen l).Sublist l := by
  induction l with
  | nil => intro seen; simp [dedupeGo]
  | cons x xs ih =>
    intro seen
    rw [dedupeGo]
    by_cases hx : x ∈ seen
    · rw [if_pos hx]
      exact (ih seen).cons x
    · rw [if_neg hx]
      exact (ih (x :: seen)).cons₂ x

theorem dedupeGo_nodup (l : List String) : ∀ seen, (dedupeGo seen l).Nodup := by
  induction l with
  | nil => intro seen; simp [dedupeGo]
  | cons x xs ih =>
    intro seen
    rw [dedupeGo]
    by_cases hx : x ∈ seen
    · rw [if_pos hx]; exact ih seen
    · rw [if_neg hx]
      refine List.nodup_cons.mpr ⟨fun hmem => ?_, ih (x :: seen)⟩
      exact ((mem_dedupeGo x xs (x :: seen)).mp hmem).2 (List.mem_cons_self x seen)

theorem dedupe_preserve_order_nodup (l : List String) : (dedupe_preserve_order l).Nodup :=
  dedupeGo_nodup l []

theorem dedupe_preserve_order_sublist (l : List String) :
    (dedupe_preserve_order l).Sublist l :=
  dedupeGo_sublist l []

theorem mem_dedupe_preserve_order (a : String) (l : List String) :
    a ∈ dedupe_preserve_order l ↔ a ∈ l := by
  rw [dedupe_preserve_order, mem_dedupeGo]
  simp

theorem nodup_length_le_of_subset {l l' : List String} (hnd : l.Nodup) (hsub : l ⊆ l') :
    l.length ≤ l'.length := by
  calc l.length = l.toFinset.card := (List.toFinset_card_of_nodup hnd).symm
    _ ≤ l'.toFinset.card := by
        apply Finset.card_le_card
        intro x hx
        exact List.mem_toFinset.mpr (hsub (List.mem_toFinset.mp hx))
    _ ≤ l'.length := l'.toFinset_card_le

theorem keepSet_length_le (w : String → ℚ) (seq : List String) (top_k : ℕ) :
    (keepSet w seq top_k).length ≤ top_k := by
  rw [keepSet, List.length_map]
  exact List.length_take_le _ _

theorem compress_length_le (w : String → ℚ) (seq : List String) (top_k : ℕ) :
    (compress_sequence_keep_order w seq top_k).length ≤ top_k := by
  rw [compress_sequence_keep_order]
  split
  · simp
  · refine le_trans (nodup_length_le_of_subset ?_ ?_) (keepSet_length_le w seq top_k)
    · exact (dedupe_preserve_order_nodup seq).filter _
    · intro c hc
      exact of_decide_eq_true (List.mem_filter.mp hc).2

theorem compress_sublist (w : String → ℚ) (seq : List String) (top_k : ℕ) :
    (compress_sequence_keep_order w seq top_k).Sublist (dedupe_preserve_order seq) := by
  rw [compress_sequence_keep_order]
  split
  · rename_i h
    rw [h]
    simp [dedupe_preserve_order, dedupeGo]
  · exact List.filter_sublist _

theorem compress_nodup (w : String → ℚ) (seq : List String) (top_k : ℕ) :
    (compress_sequence_keep_order w seq top_k).Nodup :=
  (compress_sublist w seq top_k).nodup (dedupe_preserve_order_nodup seq)

theorem mem_enter_walk (stopwords : List String) (rows : List RiskRow) (c : String) :
    ∀ prev, c ∈ enter_walk stopwords prev rows → c ∉ stopwords ∧ c ≠ "" := by
  induction rows with
  | nil => intro prev h; simp [enter_walk] at h
  | cons r rs ih =>
    intro prev h
    simp only [enter_walk, List.mem_append] at h
    rcases h with h | h
    · have h1 := of_decide_eq_true (List.mem_filter.mp h).2
      have h2 := of_decide_eq_true (List.mem_filter.mp h1.1).2
      exact ⟨h2.2, h2.1⟩
    · exact ih _ h

/-- C6: every fingerprint produced by `build_fingerprint_sequence` has length at
most `top_k`, contains no duplicate code and no stopword code, and lists its
surviving codes in the relative order in which they first entered the active
(non-stopword) set while walking the window rows in time order (formally: it is
a sublist of the deduplicated entering sequence of the window walk). -/
theorem build_fingerprint_invariants (w : String → ℚ) (risk_df : Option RiskFrame)
    (peak_time_sec window_sec : Int) (stopwords : List String) (top_k : ℕ) :
    (build_fingerprint_sequence w risk_df peak_time_sec window_sec stopwords top_k).length
        ≤ top_k ∧
    (build_fingerprint_sequence w risk_df peak_time_sec window_sec stopwords top_k).Nodup ∧
    (∀ c ∈ build_fingerprint_sequence w risk_df peak_time_sec window_sec stopwords top_k,
        c ∉ stopwords) ∧
    (build_fingerprint_sequence w risk_df peak_time_sec window_sec stopwords top_k).Sublist
      (dedupe_preserve_order
        (enter_walk stopwords [] (fingerprint_window risk_df peak_time_sec window_sec))) := by
  have hsub :
      (build_fingerprint_sequence w risk_df peak_time_sec window_sec stopwords top_k).Sublist
        (dedupe_preserve_order
          (enter_walk stopwords [] (fingerprint_window risk_df peak_time_sec window_sec))) :=
    (compress_sublist w _ top_k).trans (dedupe_preserve_order_sublist _)
  refine ⟨compress_length_le w _ top_k, compress_nodup w _ top_k, ?_, hsub⟩
  intro c hc
  have h1 := hsub.subset hc
  have h2 := (mem_dedupe_preserve_order c _).mp h1
  exact (mem_enter_walk stopwords _ c [] h2).1

/-- C7: `build_fingerprint_sequence` (a total function, hence never raising)
returns the empty sequence whenever the timeline is `None` or empty, is missing
either required column, or the window selects no rows. -/
theorem build_fingerprint_degenerate (w : String → ℚ) (peak_time_sec window_sec : Int)
    (stopwords : List String) (top_k : ℕ) :
    build_fingerprint_sequence w none peak_time_sec window_sec stopwords top_k = [] ∧
    (∀ df : RiskFrame, df.rows = [] →
      build_fingerprint_sequence w (some df) peak_time_sec window_sec stopwords top_k = []) ∧
    (∀ df : RiskFrame, df.has_timestamp_col = false ∨ df.has_active_col = false →
      build_fingerprint_sequence w (some df) peak_time_sec window_sec stopwords top_k = []) ∧
    (∀ df : RiskFrame, fingerprint_window (some df) peak_time_sec window_sec = [] →
      build_fingerprint_sequence w (some df) peak_time_sec window_sec stopwords top_k = []) := by
  have hempty : ∀ rdf : Option RiskFrame,
      fingerprint_window rdf peak_time_sec window_sec = [] →
      build_fingerprint_sequence w rdf peak_time_sec window_sec stopwords top_k = [] := by
    intro rdf hw
    rw [build_fingerprint_sequence, hw]
    rfl
  refine ⟨hempty none rfl, ?_, ?_, fun df h => hempty (some df) h⟩
  · intro df hrows
    apply hempty
    simp [fingerprint_window, hrows]
  · intro df hcol
    apply hempty
    rw [fingerprint_window]
    split
    · rfl
    · rw [if_pos]
      rcases hcol with h | h <;> simp [h]

theorem mode_filter_eq (m : String) (dangers : List DangerIn) :
    (if m = "goals" then dangers.filter (fun d => d.resulted_in_goal)
     else if m = "critical" then
       dangers.filter (fun d => decide (strLower d.severity = "critical"))
     else dangers)
      = dangers.filter (mode_keeps m) := by
  by_cases h1 : m = "goals"
  · subst h1
    rw [if_pos rfl]
    apply List.filter_congr
    intro d _
    simp [mode_keeps]
  · by_cases h2 : m = "critical"
    · subst h2
      rw [if_neg h1, if_pos rfl]
      apply List.filter_congr
      intro d _
      simp [mode_keeps, h1]
    · rw [if_neg h1, if_neg h2]
      refine (List.filter_eq_self.mpr ?_).symm
      intro d _
      simp [mode_keeps, h1, h2]

/-- C8 (amended): the mode string is first normalized by
`(mode or "all").lower().strip()`; if the normalized mode is outside
`{all, goals, critical}` the call is a configuration error raised before any
per-match work (an `Except.error`, independent of the collaborators and the
match list); for a valid normalized mode each match's danger moments are
filtered before fingerprinting by the mode predicate (`goals`: only
goal-resulting moments, `critical`: only moments whose lowercased severity is
"critical", `all`: every moment). -/
theorem build_all_mode_spec {Ev : Type} (w : String → ℚ) (load_events : String → Ev)
    (compute_risk_score : Ev → Option RiskFrame)
    (detect_danger_moments : Option RiskFrame → Ev → List DangerIn)
    (get_opponent_goal_times : Ev → List Int)
    (match_names : List String) (mode : String) (lookahead : Int) :
    (normalize_mode mode ∉ (["all", "goals", "critical"] : List String) →
      build_all_matches_dangers_for_patterns w load_events compute_risk_score
          detect_danger_moments get_opponent_goal_times match_names mode lookahead
        = Except.error "mode must be one of: 'all', 'goals', 'critical'") ∧
    (normalize_mode mode ∈ (["all", "goals", "critical"] : List String) →
      build_all_matches_dangers_for_patterns w load_events compute_risk_score
          detect_danger_moments get_opponent_goal_times match_names mode lookahead
        = Except.ok (match_names.flatMap (fun match_name =>
            ((detect_danger_moments (compute_risk_score (load_events match_name))
                (load_events match_name)).filter
              (mode_keeps (normalize_mode mode))).map
              (enrich_danger w (compute_risk_score (load_events match_name))
                (get_opponent_goal_times (load_events match_name)) lookahead
                match_name)))) := by
  constructor
  · intro hm
    rw [build_all_matches_dangers_for_patterns, if_pos hm]
  · intro hm
    rw [build_all_matches_dangers_for_patterns, if_neg (fun h => h hm)]
    apply congrArg Except.ok
    apply congrArg match_names.flatMap
    funext match_name
    dsimp only
    rw [mode_filter_eq]

/-- Witness for C8's amended theorem: a normalized-invalid mode errors, a
denormalized-valid mode filters by the goals predicate. -/
theorem build_all_mode_spec_witness :
    @build_all_matches_dangers_for_patterns Unit (fun _ => 0) (fun _ => ())
        (fun _ => none) (fun _ _ => []) (fun _ => []) [] "bogus" 120
      = Except.error "mode must be one of: 'all', 'goals', 'critical'" ∧
    @build_all_matches_dangers_for_patterns Unit (fun _ => 0) (fun _ => ())
        (fun _ => none) (fun _ _ => []) (fun _ => []) [] " Goals " 120
      = Except.ok [] := by
  constructor
  · exact (@build_all_mode_spec Unit (fun _ => 0) (fun _ => ()) (fun _ => none)
      (fun _ _ => []) (fun _ => []) [] "bogus" 120).1 (by with_unfolding_all decide)
  · have h := (@build_all_mode_spec Unit (fun _ => 0) (fun _ => ()) (fun _ => none)
      (fun _ _ => []) (fun _ => []) [] " Goals " 120).2 (by with_unfolding_all decide)
    rw [h]
    rfl

/-- Counterexample to C8 as stated: the raw mode string `"GOALS"` is not one of
`all`, `goals`, `critical` and yet is accepted (the code lowercases and strips
first), and mode `critical` keeps a moment whose severity is `"CRITICAL"`,
which is not the string `"critical"`. -/
theorem build_all_mode_claim_counterexample :
    ("GOALS" ∉ (["all", "goals", "critical"] : List String) ∧
      @build_all_matches_dangers_for_patterns Unit (fun _ => 0) (fun _ => ())
          (fun _ => none) (fun _ _ => []) (fun _ => []) [] "GOALS" 120
        = Except.ok []) ∧
    (({ peak_time := 0, peak_score := 0, severity := "CRITICAL",
        resulted_in_goal := false, nexus_timestamp := "" } : DangerIn).severity
        ≠ "critical" ∧
      @build_all_matches_dangers_for_patterns Unit (fun _ => 0) (fun _ => ())
          (fun _ => none)
          (fun _ _ => [{ peak_time := 0, peak_score := 0, severity := "CRITICAL",
                         resulted_in_goal := false, nexus_timestamp := "" }])
          (fun _ => []) ["m1"] "critical" 120
        = Except.ok [enrich_danger (fun _ => 0) none [] 120 "m1"
            { peak_time := 0, peak_score := 0, severity := "CRITICAL",
              resulted_in_goal := false, nexus_timestamp := "" }]) := by
  refine ⟨⟨by decide, ?_⟩, ⟨by decide, ?_⟩⟩
  · with_unfolding_all decide
  · with_unfolding_all decide

theorem place_in_clusters_eq_spec_place (θ : ℚ) (d : Danger) (cs : List Pattern) :
    place_in_clusters θ d cs = spec_place θ d cs := by
  induction cs with
  | nil => rfl
  | cons c rest ih =>
    rw [place_in_clusters, spec_place]
    by_cases hc : θ ≤ subseq_similarity d.fingerprint_seq c.sequence
    · rw [if_pos hc]
      rw [List.dropWhile_cons, List.takeWhile_cons]
      simp only [decide_eq_true hc, Bool.not_true, Bool.false_eq_true, if_false,
        reduceIte]
      rfl
    · rw [if_neg hc, ih, spec_place]
      rw [List.dropWhile_cons, List.takeWhile_cons]
      simp only [decide_eq_false hc, Bool.not_false, if_true, reduceIte]
      cases hdrop : List.dropWhile
          (fun c => !(decide (θ ≤ subseq_similarity d.fingerprint_seq c.sequence))) rest with
      | nil => rfl
      | cons c' post => rfl

theorem cluster_step_eq_spec (θ : ℚ) (require_cause : Bool) (cs : List Pattern)
    (d : Danger) : cluster_step θ require_cause cs d = spec_cluster_step θ require_cause cs d := by
  rw [cluster_step, spec_cluster_step]
  have hcause : (require_cause && !(has_cause_code d.fingerprint_seq)) = true ↔
      (require_cause = true ∧ ¬ ∃ c ∈ d.fingerprint_seq, c ∈ CAUSE_CODES) := by
    rw [Bool.and_eq_true, Bool.not_eq_true', Bool.eq_false_iff]
    constructor
    · rintro ⟨h1, h2⟩
      refine ⟨h1, fun hex => h2 ?_⟩
      rcases hex with ⟨c, hc1, hc2⟩
      rw [has_cause_code, List.any_eq_true]
      exact ⟨c, hc1, decide_eq_true hc2⟩
    · rintro ⟨h1, h2⟩
      refine ⟨h1, fun hany => h2 ?_⟩
      rw [has_cause_code, List.any_eq_true] at hany
      rcases hany with ⟨c, hc1, hc2⟩
      exact ⟨c, hc1, of_decide_eq_true hc2⟩
  by_cases h1 : d.fingerprint_seq = []
  · rw [if_pos h1, if_pos (Or.inl h1)]
  · rw [if_neg h1]
    by_cases h2 : d.fingerprint_seq.length < MIN_PATTERN_LEN
    · rw [if_pos h2, if_pos (Or.inr (Or.inl h2))]
    · rw [if_neg h2]
      by_cases h3 : require_cause && !(has_cause_code d.fingerprint_seq)
      · rw [if_pos h3, if_pos (Or.inr (Or.inr (hcause.mp h3)))]
      · rw [if_neg h3, if_neg (by
          rintro (h | h | h)
          · exact h1 h
          · exact h2 h
          · exact h3 (hcause.mpr h)), place_in_clusters_eq_spec_place]

/-- C2: the clustering pass of `find_patterns` processes the focus moments
strictly in input order, skipping moments with an empty fingerprint, a
fingerprint shorter than the minimum length, or (when cause codes are required)
no cause code; each retained moment is attached to the first cluster, in
cluster-creation order, whose representative scores at or above the threshold
(adding the match name to the match set, appending the moment as an exemplar
only below the cap of 5, incrementing the goal counter iff the moment resulted
in a goal, and replacing the representative iff the new fingerprint is strictly
shorter); when no cluster qualifies a new cluster is appended with this
fingerprint as representative and this moment as sole member. -/
theorem build_clusters_spec (θ : ℚ) (require_cause : Bool) (all_dangers : List Danger) :
    build_clusters θ require_cause all_dangers
      = all_dangers.foldl (spec_cluster_step θ require_cause) [] := by
  rw [build_clusters]
  have h : cluster_step θ require_cause = spec_cluster_step θ require_cause :=
    funext fun cs => funext fun d => cluster_step_eq_spec θ require_cause cs d
  rw [h]

/-- Dissection of the per-cluster pipeline: a cluster contributes a record iff
it survives the three discard guards, and then contributes `scored_record`. -/
theorem score_cluster_eq_some_iff (os : StatsOracles) (ps : PatternParams)
    (base : List Danger) (rate : ℚ) (tm : ℕ) (c : Pattern) (r : PatternResult) :
    score_cluster os ps base rate tm c = some r ↔
      (ps.min_match_frequency ≤ c.match_names.length ∧
       ps.min_occurrences ≤ cluster_occurrences ps.min_subseq_similarity base c ∧
       ps.min_lift ≤ cluster_lift ps.min_subseq_similarity base c rate ∧
       r = scored_record os ps base rate tm c) := by
  simp only [score_cluster]
  by_cases h1 : c.match_names.length < ps.min_match_frequency
  · rw [if_pos h1]
    constructor
    · intro h; exact absurd h (by simp)
    · rintro ⟨hmm, _, _, _⟩; omega
  · rw [if_neg h1]
    by_cases h2 : cluster_occurrences ps.min_subseq_similarity base c < ps.min_occurrences
    · rw [if_pos h2]
      constructor
      · intro h; exact absurd h (by simp)
      · rintro ⟨_, hocc, _, _⟩; omega
    · rw [if_neg h2]
      by_cases h3 : cluster_lift ps.min_subseq_similarity base c rate < ps.min_lift
      · rw [if_pos h3]
        constructor
        · intro h; exact absurd h (by simp)
        · rintro ⟨_, _, hlift, _⟩; exact absurd hlift (not_le.mpr h3)
      · rw [if_neg h3]
        constructor
        · intro h
          exact ⟨le_of_not_lt h1, le_of_not_lt h2, le_of_not_lt h3,
            (Option.some.inj h).symm⟩
        · rintro ⟨_, _, _, rfl⟩; rfl

/-- Membership in the output of `find_patterns` comes from a surviving cluster. -/
theorem mem_find_patterns (os : StatsOracles) (all_dangers : List Danger)
    (baseline_dangers : Option (List Danger)) (ps : PatternParams)
    (r : PatternResult) (hr : r ∈ find_patterns os all_dangers baseline_dangers ps) :
    ∃ c ∈ build_clusters ps.min_subseq_similarity REQUIRE_CAUSE_CODE all_dangers,
      score_cluster os ps (baseline_dangers.getD all_dangers)
        (baseline_goal_rate_of (baseline_dangers.getD all_dangers))
        ((dedupe_preserve_order
          ((baseline_dangers.getD all_dangers).map (fun d => d.match_name))).length) c
        = some r := by
  rw [find_patterns] at hr
  rw [List.mem_mergeSort] at hr
  rcases List.mem_filterMap.mp hr with ⟨c, hc, hsc⟩
  exact ⟨c, hc, hsc⟩

/-- C9: the pattern list returned by `find_patterns` is sorted in descending
lexicographic order on the stored tuple
`(confidence_score, lift, match_count, occurrences)` of each record. -/
theorem find_patterns_sorted (os : StatsOracles) (all_dangers : List Danger)
    (baseline_dangers : Option (List Danger)) (ps : PatternParams) :
    List.Pairwise (fun x y => result_key y ≤ result_key x)
      (find_patterns os all_dangers baseline_dangers ps) := by
  rw [find_patterns]
  have htrans : ∀ a b c : PatternResult,
      result_desc a b = true → result_desc b c = true → result_desc a c = true := by
    intro a b c hab hbc
    exact decide_eq_true (le_trans (of_decide_eq_true hbc) (of_decide_eq_true hab))
  have htotal : ∀ a b : PatternResult, (result_desc a b || result_desc b a) = true := by
    intro a b
    rw [Bool.or_eq_true]
    rcases le_total (result_key a) (result_key b) with h | h
    · exact Or.inr (decide_eq_true h)
    · exact Or.inl (decide_eq_true h)
  exact (List.sorted_mergeSort htrans htotal _).imp (fun h => of_decide_eq_true h)

/-- The confidence tier selected by the two cutoffs, characterised. -/
theorem tier_spec (score : ℚ) :
    ((if CONF_TIER_HIGH ≤ score then "high"
      else if CONF_TIER_MED ≤ score then "medium" else "low") = "high"
        ↔ 7/10 ≤ score) ∧
    ((if CONF_TIER_HIGH ≤ score then "high"
      else if CONF_TIER_MED ≤ score then "medium" else "low") = "medium"
        ↔ 45/100 ≤ score ∧ score < 7/10) ∧
    ((if CONF_TIER_HIGH ≤ score then "high"
      else if CONF_TIER_MED ≤ score then "medium" else "low") = "low"
        ↔ score < 45/100) := by
  have hH : CONF_TIER_HIGH = 7/10 := by with_unfolding_all decide
  have hM : CONF_TIER_MED = 45/100 := by with_unfolding_all decide
  have hHM : (45:ℚ)/100 < 7/10 := by norm_num
  rw [hH, hM]
  by_cases h1 : (7:ℚ)/10 ≤ score
  · rw [if_pos h1]
    refine ⟨iff_of_true rfl h1, ?_, ?_⟩
    · exact iff_of_false (by decide) (fun hc => absurd h1 (not_le.mpr hc.2))
    · exact iff_of_false (by decide) (fun hc => absurd h1 (not_le.mpr (hc.trans hHM)))
  · rw [if_neg h1]
    by_cases h2 : (45:ℚ)/100 ≤ score
    · rw [if_pos h2]
      refine ⟨iff_of_false (by decide) h1, ?_, ?_⟩
      · exact iff_of_true rfl ⟨h2, not_le.mp h1⟩
      · exact iff_of_false (by decide) (fun hc => absurd h2 (not_le.mpr hc))
    · rw [if_neg h2]
      refine ⟨iff_of_false (by decide) h1, ?_, iff_of_true rfl (not_le.mp h2)⟩
      · exact iff_of_false (by decide) (fun hc => h2 hc.1)

/-- C5: for each emitted pattern, with posterior parameters
`a = goals_for_pattern + 1` and `b = occurrences - goals_for_pattern + 1`
recomputed from the baseline, the stored posterior mean is `round(a/(a+b), 4)`;
the stored credible bounds are the rounded Beta(a, b) quantiles at `α/2` and
`1 - α/2` with `α = 1 - ci_level`; the stored exceedance probability is
`round(1 - CDF_Beta(a,b)(baseline_goal_rate), 4)`; the stored confidence score
is the rounded product of the exceedance probability and the support scaler
`0.5·min(1, ln(1+occurrences)/ln(1+support_target_occ)) +
0.5·min(1, match_count/support_target_matches)`; and the confidence tier is
"high" iff the computed score is ≥ 0.70, "medium" iff it is in `[0.45, 0.70)`,
and "low" otherwise. -/
theorem find_patterns_bayesian_fields (os : StatsOracles) (all_dangers : List Danger)
    (baseline_dangers : Option (List Danger)) (ps : PatternParams) :
    ∀ r ∈ find_patterns os all_dangers baseline_dangers ps,
      ∃ c ∈ build_clusters ps.min_subseq_similarity REQUIRE_CAUSE_CODE all_dangers,
        let base := baseline_dangers.getD all_dangers
        let rate := baseline_goal_rate_of base
        let n := cluster_occurrences ps.min_subseq_similarity base c
        let k := cluster_goals ps.min_subseq_similarity base c
        let a := k + 1
        let b := n - k + 1
        let score := (1 - os.cdf rate a b) *
          ((1/2 : ℚ) * min 1 (os.log1p (n : ℚ) / os.log1p (ps.support_target_occ : ℚ)) +
           (1/2 : ℚ) * min 1 ((c.match_names.length : ℚ) / (ps.support_target_matches : ℚ)))
        r.posterior_mean = pyRound 4 ((a : ℚ) / ((a : ℚ) + (b : ℚ))) ∧
        r.ci_low = pyRound 4 (os.ppf ((1 - ps.ci_level) / 2) a b) ∧
        r.ci_high = pyRound 4 (os.ppf (1 - (1 - ps.ci_level) / 2) a b) ∧
        r.p_goal_rate_gt_baseline = pyRound 4 (1 - os.cdf rate a b) ∧
        r.confidence_score = pyRound 4 score ∧
        (r.confidence_tier = "high" ↔ 7/10 ≤ score) ∧
        (r.confidence_tier = "medium" ↔ 45/100 ≤ score ∧ score < 7/10) ∧
        (r.confidence_tier = "low" ↔ score < 45/100) := by
  intro r hr
  obtain ⟨c, hc, hsc⟩ := mem_find_patterns os all_dangers baseline_dangers ps r hr
  obtain ⟨h1, h2, h3, rfl⟩ := (score_cluster_eq_some_iff _ _ _ _ _ _ _).mp hsc
  refine ⟨c, hc, ?_⟩
  dsimp only
  refine ⟨rfl, rfl, rfl, rfl, rfl, ?_, ?_, ?_⟩
  · exact (tier_spec _).1
  · exact (tier_spec _).2.1
  · exact (tier_spec _).2.2

/-- The sample run emits exactly its one scored record. -/
theorem exRun_eq :
    find_patterns exOracles exFocus (some exBase) (exParams (mkRat 115 100))
      = [exResult] := by
  have hS : score_cluster exOracles (exParams (mkRat 115 100)) exBase
      (baseline_goal_rate_of exBase)
      ((dedupe_preserve_order (exBase.map (fun d => d.match_name))).length) exCluster
      = some exResult :=
    (score_cluster_eq_some_iff _ _ _ _ _ _ _).mpr
      ⟨by decide, by decide, by decide, rfl⟩
  have hB : build_clusters (exParams (mkRat 115 100)).min_subseq_similarity
      REQUIRE_CAUSE_CODE exFocus = [exCluster] := by decide
  simp only [find_patterns, Option.getD_some]
  rw [hB, List.filterMap_cons, hS, List.filterMap_nil]
  exact List.mergeSort_singleton exResult

/-- Witness for C5 at the sample run: its single record's tier is "low". -/
theorem find_patterns_bayesian_fields_witness : exResult.confidence_tier = "low" := by
  obtain ⟨c, hc, hfields⟩ :=
    find_patterns_bayesian_fields exOracles exFocus (some exBase) (exParams (mkRat 115 100))
      exResult (by rw [exRun_eq]; exact List.mem_singleton.mpr rfl)
  have hc0 : c = exCluster := by
    have hb : build_clusters (exParams (mkRat 115 100)).min_subseq_similarity
        REQUIRE_CAUSE_CODE exFocus = [exCluster] := by decide
    rw [hb] at hc
    simpa using hc
  subst hc0
  dsimp only at hfields
  exact hfields.2.2.2.2.2.2.2.mpr (by decide)

/-- C4: the baseline goal rate is computed once over the whole baseline set as
(valid goal-resulting moments) / (valid moments) and is 0.0 when the baseline
has no valid moments (the embedding is a total function: no division-by-zero
error); every emitted record stores the rounding of that single value; an
emitted record's lift field stores `round(pattern_goal_rate /
baseline_goal_rate, 3)` when the baseline rate is positive and `round(0.0, 3)`
otherwise, and a cluster whose lift is below `min_lift` is discarded; with an
empty baseline set (and the lift filter active, `0 < min_lift`) every cluster
yields lift 0.0 and is discarded, so the output is empty. -/
theorem find_patterns_baseline_and_lift (os : StatsOracles) (all_dangers : List Danger)
    (baseline_dangers : Option (List Danger)) (ps : PatternParams) :
    (baseline_valid_count (baseline_dangers.getD all_dangers) = 0 →
      baseline_goal_rate_of (baseline_dangers.getD all_dangers) = 0) ∧
    (baseline_valid_count (baseline_dangers.getD all_dangers) ≠ 0 →
      baseline_goal_rate_of (baseline_dangers.getD all_dangers)
        = (baseline_goal_count (baseline_dangers.getD all_dangers) : ℚ)
            / (baseline_valid_count (baseline_dangers.getD all_dangers) : ℚ)) ∧
    (∀ r ∈ find_patterns os all_dangers baseline_dangers ps,
      r.baseline_goal_rate
        = pyRound 4 (baseline_goal_rate_of (baseline_dangers.getD all_dangers))) ∧
    (∀ (tm : ℕ) (c : Pattern) (r : PatternResult),
      score_cluster os ps (baseline_dangers.getD all_dangers)
          (baseline_goal_rate_of (baseline_dangers.getD all_dangers)) tm c = some r →
      r.lift = pyRound 3
        (if 0 < baseline_goal_rate_of (baseline_dangers.getD all_dangers) then
          cluster_pattern_goal_rate ps.min_subseq_similarity
              (baseline_dangers.getD all_dangers) c
            / baseline_goal_rate_of (baseline_dangers.getD all_dangers)
         else 0) ∧
      ps.min_lift ≤ cluster_lift ps.min_subseq_similarity
        (baseline_dangers.getD all_dangers) c
        (baseline_goal_rate_of (baseline_dangers.getD all_dangers))) ∧
    (0 < ps.min_lift → find_patterns os all_dangers (some []) ps = []) := by
  refine ⟨?_, ?_, ?_, ?_, ?_⟩
  · intro h
    rw [baseline_goal_rate_of, if_neg (fun hne => hne h)]
  · intro h
    rw [baseline_goal_rate_of, if_pos h]
  · intro r hr
    obtain ⟨c, hc, hsc⟩ := mem_find_patterns os all_dangers baseline_dangers ps r hr
    obtain ⟨_, _, _, rfl⟩ := (score_cluster_eq_some_iff _ _ _ _ _ _ _).mp hsc
    rfl
  · intro tm c r hsc
    obtain ⟨_, _, h3, rfl⟩ := (score_cluster_eq_some_iff _ _ _ _ _ _ _).mp hsc
    exact ⟨rfl, h3⟩
  · intro hml
    have hrate : baseline_goal_rate_of [] = 0 := by decide
    have hnone : ∀ (tm : ℕ) (c : Pattern),
        score_cluster os ps [] (baseline_goal_rate_of []) tm c = none := by
      intro tm c
      simp only [score_cluster]
      split
      · rfl
      split
      · rfl
      split
      · rfl
      · rename_i h1 h2 h3
        exfalso
        have hl : cluster_lift ps.min_subseq_similarity [] c (baseline_goal_rate_of [])
            = 0 := by
          rw [cluster_lift, hrate, if_neg (lt_irrefl 0)]
        rw [hl] at h3
        exact h3 hml
    rw [find_patterns]
    simp only [Option.getD_some]
    rw [List.filterMap_eq_nil_iff.mpr (fun c _ => hnone _ c), List.mergeSort_nil]

/-- Witness for C4: the sample run over an empty baseline is empty, and the
sample record stores the rounded global baseline rate. -/
theorem find_patterns_baseline_and_lift_witness :
    find_patterns exOracles exFocus (some []) (exParams (mkRat 115 100)) = [] ∧
    exResult.baseline_goal_rate = pyRound 4 (baseline_goal_rate_of exBase) := by
  constructor
  · exact (find_patterns_baseline_and_lift exOracles exFocus (some [])
      (exParams (mkRat 115 100))).2.2.2.2 (by decide)
  · exact (find_patterns_baseline_and_lift exOracles exFocus (some exBase)
      (exParams (mkRat 115 100))).2.2.1 exResult
      (by rw [exRun_eq]; exact List.mem_singleton.mpr rfl)

/-- C3 (amended): every record returned by `find_patterns` satisfies, over the
stored (rounded) field values: `ci_low ≤ posterior_mean ≤ ci_high`;
`0 ≤ p_goal_rate_gt_baseline ≤ 1`; `0 ≤ confidence_score ≤ 1`;
`match_count ≥ min_match_frequency`; `occurrences ≥ min_occurrences`; and,
whenever `baseline_goal_rate > 0`, `lift ≥ min_lift − 0.0005`: the unrounded
lift satisfies `lift ≥ min_lift`, but the stored field is rounded to 3 decimals
and can fall up to half an ulp below `min_lift`.  The external `beta.ppf`,
`beta.cdf` and `log1p` calls are assumed to return values with the
corresponding properties of the true Beta distribution and logarithm: the CDF
lies in [0, 1], the `α/2` and `1 − α/2` quantiles of Beta(a, b) with integer
`a, b ≥ 1` straddle its mean `a/(a+b)`, and `log1p` is nonnegative on
nonnegative inputs. -/
theorem find_patterns_result_invariants (os : StatsOracles) (all_dangers : List Danger)
    (baseline_dangers : Option (List Danger)) (ps : PatternParams)
    (hcdf : ∀ (x : ℚ) (a b : ℕ), 0 ≤ os.cdf x a b ∧ os.cdf x a b ≤ 1)
    (hppf : ∀ a b : ℕ, 1 ≤ a → 1 ≤ b →
      os.ppf ((1 - ps.ci_level) / 2) a b ≤ (a : ℚ) / ((a : ℚ) + (b : ℚ)) ∧
      (a : ℚ) / ((a : ℚ) + (b : ℚ)) ≤ os.ppf (1 - (1 - ps.ci_level) / 2) a b)
    (hlog : ∀ x : ℚ, 0 ≤ x → 0 ≤ os.log1p x) :
    ∀ r ∈ find_patterns os all_dangers baseline_dangers ps,
      r.ci_low ≤ r.posterior_mean ∧
      r.posterior_mean ≤ r.ci_high ∧
      (0 ≤ r.p_goal_rate_gt_baseline ∧ r.p_goal_rate_gt_baseline ≤ 1) ∧
      (0 ≤ r.confidence_score ∧ r.confidence_score ≤ 1) ∧
      ps.min_match_frequency ≤ r.match_count ∧
      ps.min_occurrences ≤ r.occurrences ∧
      (0 < r.baseline_goal_rate → ps.min_lift - 1/2000 ≤ r.lift) := by
  intro r hr
  obtain ⟨c, hc, hsc⟩ := mem_find_patterns os all_dangers baseline_dangers ps r hr
  obtain ⟨h1, h2, h3, rfl⟩ := (score_cluster_eq_some_iff _ _ _ _ _ _ _).mp hsc
  simp only [scored_record]
  have hcdf1 := hcdf (baseline_goal_rate_of (baseline_dangers.getD all_dangers))
    (cluster_goals ps.min_subseq_similarity (baseline_dangers.getD all_dangers) c + 1)
    (cluster_occurrences ps.min_subseq_similarity (baseline_dangers.getD all_dangers) c
      - cluster_goals ps.min_subseq_similarity (baseline_dangers.getD all_dangers) c + 1)
  have hppf1 := hppf
    (cluster_goals ps.min_subseq_similarity (baseline_dangers.getD all_dangers) c + 1)
    (cluster_occurrences ps.min_subseq_similarity (baseline_dangers.getD all_dangers) c
      - cluster_goals ps.min_subseq_similarity (baseline_dangers.getD all_dangers) c + 1)
    (by omega) (by omega)
  have hlogd : (0:ℚ) ≤ os.log1p
        ((cluster_occurrences ps.min_subseq_similarity
          (baseline_dangers.getD all_dangers) c : ℚ))
        / os.log1p ((ps.support_target_occ : ℚ)) :=
    div_nonneg (hlog _ (Nat.cast_nonneg _)) (hlog _ (Nat.cast_nonneg _))
  have hmm : (0:ℚ) ≤ ((c.match_names.length : ℚ)) / ((ps.support_target_matches : ℚ)) :=
    div_nonneg (Nat.cast_nonneg _) (Nat.cast_nonneg _)
  have hso0 : (0:ℚ) ≤ min 1 (os.log1p
        ((cluster_occurrences ps.min_subseq_similarity
          (baseline_dangers.getD all_dangers) c : ℚ))
        / os.log1p ((ps.support_target_occ : ℚ))) := le_min (by norm_num) hlogd
  have hso1 := min_le_left (1:ℚ) (os.log1p
        ((cluster_occurrences ps.min_subseq_similarity
          (baseline_dangers.getD all_dangers) c : ℚ))
        / os.log1p ((ps.support_target_occ : ℚ)))
  have hsm0 : (0:ℚ) ≤ min 1 (((c.match_names.length : ℚ))
        / ((ps.support_target_matches : ℚ))) := le_min (by norm_num) hmm
  have hsm1 := min_le_left (1:ℚ)
    (((c.match_names.length : ℚ)) / ((ps.support_target_matches : ℚ)))
  refine ⟨?_, ?_, ?_, ?_, h1, h2, ?_⟩
  · exact pyRound_mono 4 hppf1.1
  · exact pyRound_mono 4 hppf1.2
  · exact pyRound_mem_unit 4 (by linarith [hcdf1.2]) (by linarith [hcdf1.1])
  · refine pyRound_mem_unit 4 (mul_nonneg (by linarith [hcdf1.1]) (by linarith)) ?_
    exact mul_le_one₀ (by linarith [hcdf1.1]) (by linarith) (by linarith)
  · intro _
    have hle := sub_le_pyRound 3 (cluster_lift ps.min_subseq_similarity
      (baseline_dangers.getD all_dangers) c
      (baseline_goal_rate_of (baseline_dangers.getD all_dangers)))
    have h2000 : (1:ℚ) / (2 * 10 ^ (3:ℕ)) = 1/2000 := by norm_num
    rw [h2000] at hle
    linarith

/-- Counterexample to C3 as stated: with `min_lift = 4/3` the sample run emits a
record whose stored (3-decimal-rounded) lift, 1.333, is below `min_lift`, while
its stored `baseline_goal_rate`, 0.5, is positive. -/
theorem find_patterns_result_invariants_counterexample :
    ∃ r ∈ find_patterns exOracles exFocus (some exBase) (exParams (mkRat 4 3)),
      0 < r.baseline_goal_rate ∧ r.lift < (exParams (mkRat 4 3)).min_lift := by
  have hS : score_cluster exOracles (exParams (mkRat 4 3)) exBase
      (baseline_goal_rate_of exBase)
      ((dedupe_preserve_order (exBase.map (fun d => d.match_name))).length) exCluster
      = some (scored_record exOracles (exParams (mkRat 4 3)) exBase
        (baseline_goal_rate_of exBase)
        ((dedupe_preserve_order (exBase.map (fun d => d.match_name))).length) exCluster) :=
    (score_cluster_eq_some_iff _ _ _ _ _ _ _).mpr
      ⟨by decide, by decide, by decide, rfl⟩
  have hB : build_clusters (exParams (mkRat 4 3)).min_subseq_similarity
      REQUIRE_CAUSE_CODE exFocus = [exCluster] := by decide
  have hout : find_patterns exOracles exFocus (some exBase) (exParams (mkRat 4 3))
      = [scored_record exOracles (exParams (mkRat 4 3)) exBase
          (baseline_goal_rate_of exBase)
          ((dedupe_preserve_order (exBase.map (fun d => d.match_name))).length)
          exCluster] := by
    simp only [find_patterns, Option.getD_some]
    rw [hB, List.filterMap_cons, hS, List.filterMap_nil]
    exact List.mergeSort_singleton _
  rw [hout]
  refine ⟨_, List.mem_singleton.mpr rfl, ?_, ?_⟩
  · decide
  · decide

/-- Witness for C3's amended theorem at the sample run. -/
theorem find_patterns_result_invariants_witness :
    exResult.ci_low ≤ exResult.posterior_mean ∧
    (exParams (mkRat 115 100)).min_lift - 1/2000 ≤ exResult.lift := by
  have h := find_patterns_result_invariants exOracles exFocus (some exBase)
    (exParams (mkRat 115 100))
    (fun _ _ _ => ⟨(by decide : (0:ℚ) ≤ mkRat 1 2), (by decide : (mkRat 1 2 : ℚ) ≤ 1)⟩)
    (fun a b _ _ => ⟨le_refl _, le_refl _⟩)
    (fun x hx => hx)
    exResult (by rw [exRun_eq]; exact List.mem_singleton.mpr rfl)
  exact ⟨h.1, h.2.2.2.2.2.2 (by decide)⟩

/-- Witness for C7: a missing timeline and a missing column both yield the
empty fingerprint. -/
theorem build_fingerprint_degenerate_witness :
    build_fingerprint_sequence (fun _ => 0) none 10 60 DEFAULT_STOPWORDS 4 = [] ∧
    build_fingerprint_sequence (fun _ => 0)
      (some { has_timestamp_col := false, has_active_col := true,
              rows := [{ timestamp_sec := 5, active_events := Cell.null }] })
      10 60 DEFAULT_STOPWORDS 4 = [] :=
  ⟨(build_fingerprint_degenerate (fun _ => 0) 10 60 DEFAULT_STOPWORDS 4).1,
   (build_fingerprint_degenerate (fun _ => 0) 10 60 DEFAULT_STOPWORDS 4).2.2.1 _
     (Or.inl rfl)⟩

end PatternAnalyzer
